import Mathlib

/-!
# Verification of `upnp-client-rs`'s media-renderer core

A shallow embedding of `src/media_renderer.rs`: the `MediaRendererClient`
façade (load / play / pause / stop / seek / volume / protocol / position /
duration operations), the DIDL-Lite metadata encoder `build_metadata`, and
the `format_time` helper, together with proofs of the specification's
claims about them.

Rust strings are embedded as `String` (or `List Char` where character-level
reasoning is needed); `HashMap<String, String>` action parameters are
embedded as association lists with distinct keys; `anyhow::Error` values are
opaque and embedded as `String`; fallible calls return `Except String α`;
a Rust panic (`todo!()`, `.unwrap()` on an error) is the `Outcome.panic`
result.  The network transport (`DeviceClient::call_action`) and the
response decoders (`crate::parser`) are external collaborators: they are
universally quantified as function parameters of the embedded operations.
-/

namespace MediaRenderer

/-! ## Data model

`types::Metadata`, `types::LoadOptions` and `types::ObjectClass` are
repository types declared outside the file in scope; their shape is used by
`media_renderer.rs` (fields `url`, `title`, `artist`, `protocol_info`;
options `dlna_features`, `content_type`, `metadata`, `autoplay`;
`ObjectClass::Audio` with a `value()` string). -/

/-- The media item handed to the metadata encoder (`types::Metadata`). -/
structure Metadata where
  url : String
  title : String
  artist : String
  protocol_info : String
deriving Repr, DecidableEq

/-- Modelled from the spec: `types::Metadata`'s `Default` (the `types`
module is not under `src/`) — metadata title and artist default to empty
strings, and the remaining fields are likewise empty by default. -/
def Metadata.default : Metadata :=
  { url := "", title := "", artist := "", protocol_info := "" }

/-- Caller options of `load` (`types::LoadOptions`). -/
structure LoadOptions where
  dlna_features : Option String
  content_type : Option String
  metadata : Option Metadata
  autoplay : Bool
deriving Repr, DecidableEq

/-- `types::ObjectClass` (the closed DIDL-Lite object-class enumeration). -/
inductive ObjectClass where
  | Audio
deriving Repr, DecidableEq

/-- Modelled from the spec: `ObjectClass::value()` (the `types` module is
not under `src/`) — each class maps to a fixed UPnP class URI string,
`object.item.audioItem` for `Audio`. -/
def ObjectClass.value : ObjectClass → String
  | .Audio => "object.item.audioItem"

/-! ## XML character escaping

Modelled from the spec: the encoder (through the external `xml_builder`
crate, which is not part of this repository) XML-escapes all text content
and attribute values it writes.  The escape map is the standard XML one on
`& " < >`. -/

/-- The XML escape of one character. -/
def escapeChar (c : Char) : List Char :=
  if c = '&' then "&amp;".data
  else if c = '"' then "&quot;".data
  else if c = '<' then "&lt;".data
  else if c = '>' then "&gt;".data
  else [c]

/-- XML-escape a character list (text content or attribute value). -/
def escapeXml : List Char → List Char
  | [] => []
  | c :: cs => escapeChar c ++ escapeXml cs

/-- Undo `escapeXml`: replace the four standard XML entities by their
characters.  This is the string part of the parse direction of the
round-trip property. -/
def unescapeXml : List Char → List Char
  | [] => []
  | c :: rest =>
    if c = '&' then
      match rest with
      | 'a' :: 'm' :: 'p' :: ';' :: r => '&' :: unescapeXml r
      | 'q' :: 'u' :: 'o' :: 't' :: ';' :: r => '"' :: unescapeXml r
      | 'l' :: 't' :: ';' :: r => '<' :: unescapeXml r
      | 'g' :: 't' :: ';' :: r => '>' :: unescapeXml r
      | r => '&' :: unescapeXml r
    else c :: unescapeXml rest

/-- Escaped text never contains a raw `<`. -/
theorem escapeXml_not_mem_lt : ∀ s : List Char, '<' ∉ escapeXml s := by
  intro s
  induction s with
  | nil => simp [escapeXml]
  | cons c cs ih =>
    simp only [escapeXml, List.mem_append]
    rintro (h | h)
    · unfold escapeChar at h
      split at h
      · simp_all [String.data]
      · split at h
        · simp_all [String.data]
        · split at h
          · simp_all [String.data]
          · split at h
            · simp_all [String.data]
            · rename_i h1 h2 h3 h4
              simp only [List.mem_singleton] at h
              exact h3 (h ▸ rfl)
    · exact ih h

/-- Escaped text never contains a raw `"`. -/
theorem escapeXml_not_mem_quot : ∀ s : List Char, '"' ∉ escapeXml s := by
  intro s
  induction s with
  | nil => simp [escapeXml]
  | cons c cs ih =>
    simp only [escapeXml, List.mem_append]
    rintro (h | h)
    · unfold escapeChar at h
      split at h
      · simp_all [String.data]
      · split at h
        · simp_all [String.data]
        · split at h
          · simp_all [String.data]
          · split at h
            · simp_all [String.data]
            · rename_i h1 h2 h3 h4
              simp only [List.mem_singleton] at h
              exact h2 (h ▸ rfl)
    · exact ih h

/-- Unescaping inverts escaping: the encoder's escaping loses nothing. -/
theorem unescapeXml_escapeXml : ∀ s : List Char, unescapeXml (escapeXml s) = s := by
  intro s
  induction s with
  | nil => rfl
  | cons c cs ih =>
    show unescapeXml (escapeChar c ++ escapeXml cs) = c :: cs
    by_cases h1 : c = '&'
    · subst h1; simp [escapeChar, unescapeXml, ih]
    · by_cases h2 : c = '"'
      · subst h2; simp [escapeChar, unescapeXml, ih]
      · by_cases h3 : c = '<'
        · subst h3; simp [escapeChar, unescapeXml, ih]
        · by_cases h4 : c = '>'
          · subst h4; simp [escapeChar, unescapeXml, ih]
          · have hc : escapeChar c = [c] := by simp [escapeChar, h1, h2, h3, h4]
            rw [hc, List.singleton_append, unescapeXml.eq_def]
            simp [h1, ih]

/-! ## `format_time` (src/media_renderer.rs lines 195–200)

`format!("{:02}", n)` zero-pads the decimal rendering of `n` to a minimum
width of two characters. -/

/-- Rust's `format!("{:02}", n)`: the decimal digits of `n`, left-padded
with `0` to at least two characters. -/
def pad2 (n : Nat) : String :=
  if (Nat.repr n).length < 2 then "0" ++ Nat.repr n else Nat.repr n

/-- `format_time` (src/media_renderer.rs): seconds to `HH:MM:SS`. -/
def format_time (seconds : Nat) : String :=
  let hours := seconds / 3600
  let minutes := (seconds % 3600) / 60
  let seconds := seconds % 60
  pad2 hours ++ ":" ++ pad2 minutes ++ ":" ++ pad2 seconds

/-! ## The XML tree built by the encoder

`xml_builder`'s `XMLElement` (an external crate): an element has a name, an
ordered attribute list, and a content that is empty, text, or a list of
child elements (text and children cannot be mixed — `add_text` and
`add_child` are fallible).  `add_attribute` stores the attribute;
escaping of attribute values and text happens when the document is
written (see `serializeElement`). -/

mutual
inductive XMLElement : Type where
  | mk (name : String) (attributes : List (String × String)) (content : XMLContent)

inductive XMLContent : Type where
  | empty
  | text (t : String)
  | elements (es : XMLList)

inductive XMLList : Type where
  | nil
  | cons (head : XMLElement) (tail : XMLList)
end

/-- `XMLElement::new`: a fresh element with no attributes and no content. -/
def XMLElement.new (name : String) : XMLElement := .mk name [] .empty

/-- `XMLElement::add_attribute`: append the attribute. -/
def XMLElement.add_attribute : XMLElement → String → String → XMLElement
  | .mk n attrs c, k, v => .mk n (attrs ++ [(k, v)]) c

/-- Append an element at the end of a child list. -/
def XMLList.snoc : XMLList → XMLElement → XMLList
  | .nil, e => .cons e .nil
  | .cons h t, e => .cons h (t.snoc e)

/-- `XMLElement::add_text` (fallible): set the text content of an element
that has no content yet; adding text to an element that already has text
or children is an error. -/
def XMLElement.add_text : XMLElement → String → Except String XMLElement
  | .mk n attrs .empty, t => .ok (.mk n attrs (.text t))
  | .mk _ _ (.text _), _ => .error "element already has text content"
  | .mk _ _ (.elements _), _ => .error "element already has child elements"

/-- `XMLElement::add_child` (fallible): append a child element; adding a
child to an element with text content is an error. -/
def XMLElement.add_child : XMLElement → XMLElement → Except String XMLElement
  | .mk n attrs .empty, c => .ok (.mk n attrs (.elements (.cons c .nil)))
  | .mk n attrs (.elements es), c => .ok (.mk n attrs (.elements (es.snoc c)))
  | .mk _ _ (.text _), _ => .error "element has text content"

/-! ## Writing the document

Modelled from the spec: the XML writer (`XMLBuilder::build` / `generate`
of the external `xml_builder` crate) renders the tree as a UTF-8 document
— an XML declaration followed by the root element — XML-escaping every
text content and attribute value.  Whitespace layout between elements is
abstracted away (no claim depends on it). -/

/-- Render an attribute list: ` key="escaped value"` for each attribute. -/
def serializeAttrs : List (String × String) → List Char
  | [] => []
  | (k, v) :: rest =>
    ' ' :: (k.data ++ ('=' :: '"' :: (escapeXml v.data ++ ('"' :: serializeAttrs rest))))

mutual
/-- Render `<name attrs>content</name>`. -/
def serializeElement : XMLElement → List Char
  | .mk n attrs c =>
    '<' :: (n.data ++ (serializeAttrs attrs ++
      ('>' :: (serializeContent c ++ ('<' :: '/' :: (n.data ++ ['>']))))))

/-- Render an element's content (text is escaped). -/
def serializeContent : XMLContent → List Char
  | .empty => []
  | .text t => escapeXml t.data
  | .elements es => serializeXMLList es

/-- Render a child list in order. -/
def serializeXMLList : XMLList → List Char
  | .nil => []
  | .cons e es => serializeElement e ++ serializeXMLList es
end

/-- The XML declaration the writer emits before the root element. -/
def xmlHeader : List Char := "<?xml version=\"1.0\" encoding=\"UTF-8\"?>".data

/-! ## `build_metadata` (src/media_renderer.rs lines 156–193)

The source `.unwrap()`s every fallible step (`add_text`, `add_child`,
`generate`, `String::from_utf8`): an error in any of them panics the
process instead of returning an error value.  `buildDidlRun` is the
faithful translation, with `Outcome.panic` standing for the panic. -/

/-- A Rust computation that can return, return an error, or panic. -/
inductive Outcome (α : Type) where
  | ok (a : α)
  | err (e : String)
  | panic
deriving Repr, DecidableEq

/-- The tree-building phase of `build_metadata`, step for step: the
DIDL-Lite root with its four namespace attributes, the `item` element with
its three fixed attributes, then `upnp:class`, `res`, `dc:title`,
`dc:artist` added exactly as the source does, every `.unwrap()` rendered
as a match whose error arm panics. -/
def buildDidlRun (m : Metadata) : Outcome XMLElement :=
  let didl := ((((XMLElement.new "DIDL-Lite").add_attribute
      "xmlns" "urn:schemas-upnp-org:metadata-1-0/DIDL-Lite/").add_attribute
      "xmlns:dc" "http://purl.org/dc/elements/1.1/").add_attribute
      "xmlns:upnp" "urn:schemas-upnp-org:metadata-1-0/upnp/").add_attribute
      "xmlns:sec" "http://www.sec.co.kr/"
  let item := (((XMLElement.new "item").add_attribute "id" "0").add_attribute
      "parentID" "-1").add_attribute "restricted" "false"
  let media_type : ObjectClass := ObjectClass.Audio
  let cls := XMLElement.new "upnp:class"
  match cls.add_text media_type.value with
  | .error _ => .panic
  | .ok cls =>
    match item.add_child cls with
    | .error _ => .panic
    | .ok item =>
      let title := XMLElement.new "dc:title"
      match title.add_text m.title with
      | .error _ => .panic
      | .ok title =>
        let artist := XMLElement.new "dc:artist"
        match artist.add_text m.artist with
        | .error _ => .panic
        | .ok artist =>
          let res := (XMLElement.new "res").add_attribute "protocolInfo" m.protocol_info
          match res.add_text m.url with
          | .error _ => .panic
          | .ok res =>
            match item.add_child res with
            | .error _ => .panic
            | .ok item =>
              match item.add_child title with
              | .error _ => .panic
              | .ok item =>
                match item.add_child artist with
                | .error _ => .panic
                | .ok item =>
                  match didl.add_child item with
                  | .error _ => .panic
                  | .ok didl => .ok didl

/-- The tree `build_metadata` in fact builds (proved by
`buildDidlRun_eq`): the DIDL-Lite root carrying the four namespace
declarations, one `item` child with `id`/`parentID`/`restricted`, whose
children in order are `upnp:class`, `res`, `dc:title`, `dc:artist`. -/
def didlTree (m : Metadata) : XMLElement :=
  .mk "DIDL-Lite"
    [("xmlns", "urn:schemas-upnp-org:metadata-1-0/DIDL-Lite/"),
     ("xmlns:dc", "http://purl.org/dc/elements/1.1/"),
     ("xmlns:upnp", "urn:schemas-upnp-org:metadata-1-0/upnp/"),
     ("xmlns:sec", "http://www.sec.co.kr/")]
    (.elements (.cons (.mk "item"
      [("id", "0"), ("parentID", "-1"), ("restricted", "false")]
      (.elements (.cons (.mk "upnp:class" [] (.text "object.item.audioItem"))
        (.cons (.mk "res" [("protocolInfo", m.protocol_info)] (.text m.url))
        (.cons (.mk "dc:title" [] (.text m.title))
        (.cons (.mk "dc:artist" [] (.text m.artist)) .nil)))))) .nil))

/-- Every `.unwrap()` in the tree-building phase succeeds, and the tree
built is `didlTree`. -/
theorem buildDidlRun_eq (m : Metadata) : buildDidlRun m = .ok (didlTree m) := rfl

/-- `build_metadata` as the caller sees it on the happy path: the
serialized document string. -/
def build_metadata (m : Metadata) : String :=
  String.mk (xmlHeader ++ serializeElement (didlTree m))

/-- `build_metadata` with its panic behaviour: tree building as the source
performs it, then the write to the `Vec<u8>` buffer and the
`String::from_utf8` conversion (both total in the model: writing to a
byte vector cannot fail, and the writer's output is characters). -/
def buildMetadataRun (m : Metadata) : Outcome String :=
  match buildDidlRun m with
  | .ok didl => .ok (String.mk (xmlHeader ++ serializeElement didl))
  | .err e => .err e
  | .panic => .panic

/-! ## The renderer client (src/media_renderer.rs lines 25–154)

`MediaRendererClient` holds only the `DeviceClient`; the embedding passes
the transport (and, for the read operations, the response decoders)
explicitly.  Each operation returns the list of actions it dispatched, in
order, together with its outcome, so that call counts, call order and
error propagation are all observable. -/

/-- One dispatched action: the `call_action(service, action, params)`
triple. -/
structure ActionCall where
  service : String
  action : String
  params : List (String × String)
deriving Repr, DecidableEq

/-- The external transport: `DeviceClient::call_action` returns the raw
response body, or fails with an opaque error. -/
abbrev Transport : Type := String → String → List (String × String) → Except String String

/-- The response decoders of `crate::parser` (external collaborators, not
under `src/`): each turns a response body into a typed value or fails. -/
structure Decoders where
  parse_volume : String → Except String Nat
  parse_supported_protocols : String → Except String (List String)
  parse_position : String → Except String Nat
  parse_duration : String → Except String Nat

/-- Lines 30–45 of `load`: option defaulting (`dlna_features` to `"*"`,
`content_type` to `"video/mpeg"`, metadata to `Metadata::default()`) and
the `Metadata` value handed to the encoder. -/
def loadMetadata (url : String) (options : LoadOptions) : Metadata :=
  let dlna_features := options.dlna_features.getD "*"
  let content_type := options.content_type.getD "video/mpeg"
  let protocol_info := "http-get:*:" ++ content_type ++ ":" ++ dlna_features
  let title := (options.metadata.getD Metadata.default).title
  let artist := (options.metadata.getD Metadata.default).artist
  { url := url, title := title, artist := artist, protocol_info := protocol_info }

/-- The parameter mapping of `SetAVTransportURI` (lines 47–50). -/
def loadParams (url : String) (options : LoadOptions) : List (String × String) :=
  [("InstanceID", "0"), ("CurrentURI", url),
   ("CurrentURIMetaData", build_metadata (loadMetadata url options))]

/-- The parameter mapping of `Play` (lines 63–65). -/
def playParams : List (String × String) :=
  [("InstanceID", "0"), ("Speed", "1")]

/-- The parameter mapping of `Pause` (lines 73–74). -/
def pauseParams : List (String × String) :=
  [("InstanceID", "0")]

/-- The parameter mapping of `Seek` (lines 82–85). -/
def seekParams (seconds : Nat) : List (String × String) :=
  [("InstanceID", "0"), ("Unit", "REL_TIME"), ("Target", format_time seconds)]

/-- The parameter mapping of `Stop` (lines 93–94). -/
def stopParams : List (String × String) :=
  [("InstanceID", "0")]

/-- The parameter mapping of `GetVolume` (lines 102–104). -/
def getVolumeParams : List (String × String) :=
  [("InstanceID", "0"), ("Channel", "Master")]

/-- The parameter mapping of `SetVolume` (lines 115–118). -/
def setVolumeParams (volume : Nat) : List (String × String) :=
  [("InstanceID", "0"), ("Channel", "Master"), ("DesiredVolume", Nat.repr volume)]

/-- The parameter mapping of `GetProtocolInfo` (lines 126–127). -/
def getSupportedProtocolsParams : List (String × String) :=
  [("InstanceID", "0")]

/-- The parameter mapping of `GetPositionInfo` (lines 136–137). -/
def getPositionParams : List (String × String) :=
  [("InstanceID", "0")]

/-- The parameter mapping of `GetMediaInfo` (lines 146–147). -/
def getDurationParams : List (String × String) :=
  [("InstanceID", "0")]

/-- `play` (lines 62–70): dispatch `Play`, propagate a failure with `?`,
else return unit. -/
def play (t : Transport) : List ActionCall × Outcome Unit :=
  let c : ActionCall := ⟨"AVTransport", "Play", playParams⟩
  match t "AVTransport" "Play" playParams with
  | .error e => ([c], .err e)
  | .ok _ => ([c], .ok ())

/-- `load` (lines 29–60): build the metadata and parameters, dispatch
`SetAVTransportURI`, propagate a failure with `?`; on success, when
`options.autoplay` is set, call `self.play()` and propagate its failure
with `?`; then return unit. -/
def load (t : Transport) (url : String) (options : LoadOptions) :
    List ActionCall × Outcome Unit :=
  let ps := loadParams url options
  let c : ActionCall := ⟨"AVTransport", "SetAVTransportURI", ps⟩
  match t "AVTransport" "SetAVTransportURI" ps with
  | .error e => ([c], .err e)
  | .ok _ =>
    if options.autoplay then
      match play t with
      | (calls, .ok _) => (c :: calls, .ok ())
      | (calls, .err e) => (c :: calls, .err e)
      | (calls, .panic) => (c :: calls, .panic)
    else ([c], .ok ())

/-- `pause` (lines 72–79). -/
def pause (t : Transport) : List ActionCall × Outcome Unit :=
  let c : ActionCall := ⟨"AVTransport", "Pause", pauseParams⟩
  match t "AVTransport" "Pause" pauseParams with
  | .error e => ([c], .err e)
  | .ok _ => ([c], .ok ())

/-- `seek` (lines 81–90): dispatch `Seek` with the formatted target time;
propagate a dispatch failure with `?`; after a successful dispatch the
source hits `todo!()`, which panics. -/
def seek (t : Transport) (seconds : Nat) : List ActionCall × Outcome Unit :=
  let ps := seekParams seconds
  let c : ActionCall := ⟨"AVTransport", "Seek", ps⟩
  match t "AVTransport" "Seek" ps with
  | .error e => ([c], .err e)
  | .ok _ => ([c], .panic)

/-- `stop` (lines 92–99). -/
def stop (t : Transport) : List ActionCall × Outcome Unit :=
  let c : ActionCall := ⟨"AVTransport", "Stop", stopParams⟩
  match t "AVTransport" "Stop" stopParams with
  | .error e => ([c], .err e)
  | .ok _ => ([c], .ok ())

/-- `get_volume` (lines 101–112): dispatch `GetVolume`, then decode the
response with `parse_volume`, propagating either failure with `?`. -/
def get_volume (d : Decoders) (t : Transport) : List ActionCall × Outcome Nat :=
  let c : ActionCall := ⟨"RenderingControl", "GetVolume", getVolumeParams⟩
  match t "RenderingControl" "GetVolume" getVolumeParams with
  | .error e => ([c], .err e)
  | .ok response =>
    match d.parse_volume response with
    | .error e => ([c], .err e)
    | .ok v => ([c], .ok v)

/-- `set_volume` (lines 114–123). -/
def set_volume (t : Transport) (volume : Nat) : List ActionCall × Outcome Unit :=
  let ps := setVolumeParams volume
  let c : ActionCall := ⟨"RenderingControl", "SetVolume", ps⟩
  match t "RenderingControl" "SetVolume" ps with
  | .error e => ([c], .err e)
  | .ok _ => ([c], .ok ())

/-- `get_supported_protocols` (lines 125–133). -/
def get_supported_protocols (d : Decoders) (t : Transport) :
    List ActionCall × Outcome (List String) :=
  let c : ActionCall := ⟨"ConnectionManager", "GetProtocolInfo", getSupportedProtocolsParams⟩
  match t "ConnectionManager" "GetProtocolInfo" getSupportedProtocolsParams with
  | .error e => ([c], .err e)
  | .ok response =>
    match d.parse_supported_protocols response with
    | .error e => ([c], .err e)
    | .ok v => ([c], .ok v)

/-- `get_position` (lines 135–143). -/
def get_position (d : Decoders) (t : Transport) : List ActionCall × Outcome Nat :=
  let c : ActionCall := ⟨"AVTransport", "GetPositionInfo", getPositionParams⟩
  match t "AVTransport" "GetPositionInfo" getPositionParams with
  | .error e => ([c], .err e)
  | .ok response =>
    match d.parse_position response with
    | .error e => ([c], .err e)
    | .ok v => ([c], .ok v)

/-- `get_duration` (lines 145–153). -/
def get_duration (d : Decoders) (t : Transport) : List ActionCall × Outcome Nat :=
  let c : ActionCall := ⟨"AVTransport", "GetMediaInfo", getDurationParams⟩
  match t "AVTransport" "GetMediaInfo" getDurationParams with
  | .error e => ([c], .err e)
  | .ok response =>
    match d.parse_duration response with
    | .error e => ([c], .err e)
    | .ok v => ([c], .ok v)

/-! ## Parsing the encoder's output back

A parser for exactly the document family `build_metadata` emits: it
validates the fixed skeleton (XML declaration, the DIDL-Lite root with its
four namespace declarations, the `item` attributes, the `upnp:class`
element, the element order) and extracts the four variable fields,
undoing the XML escaping.  This is the parse direction of the spec's
round-trip property. -/

/-- Consume an expected literal; `none` when the input does not start with
it. -/
def dropLit : List Char → List Char → Option (List Char)
  | [], input => some input
  | _ :: _, [] => none
  | c :: cs, d :: ds => if c = d then dropLit cs ds else none

/-- Capture the characters before the next occurrence of `stopc`,
consuming the delimiter; `none` when `stopc` does not occur. -/
def takeUntil (stopc : Char) : List Char → Option (List Char × List Char)
  | [] => none
  | c :: cs =>
    if c = stopc then some ([], cs)
    else
      match takeUntil stopc cs with
      | some (a, r) => some (c :: a, r)
      | none => none

/-- `dropLit` consumes exactly the literal it expects. -/
theorem dropLit_append (l r : List Char) : dropLit l (l ++ r) = some r := by
  induction l with
  | nil => rfl
  | cons c cs ih => simp [dropLit, ih]

/-- `takeUntil` captures exactly the delimiter-free part before the
delimiter. -/
theorem takeUntil_append (stopc : Char) (a r : List Char) (h : stopc ∉ a) :
    takeUntil stopc (a ++ stopc :: r) = some (a, r) := by
  induction a with
  | nil => simp [takeUntil]
  | cons c cs ih =>
    have hc : ¬c = stopc := fun he => h (he ▸ List.mem_cons_self c cs)
    have hcs : stopc ∉ cs := fun hm => h (List.mem_cons_of_mem c hm)
    simp only [List.cons_append, takeUntil, if_neg hc, List.append_eq]
    rw [ih hcs]

/-- The fixed document prefix up to the `res` element's `protocolInfo`
attribute value: the XML declaration, the DIDL-Lite root with its four
namespace declarations, the `item` element with its three fixed
attributes, and the `upnp:class` element. -/
def didlHead : String :=
  "<?xml version=\"1.0\" encoding=\"UTF-8\"?>" ++
  "<DIDL-Lite xmlns=\"urn:schemas-upnp-org:metadata-1-0/DIDL-Lite/\"" ++
  " xmlns:dc=\"http://purl.org/dc/elements/1.1/\"" ++
  " xmlns:upnp=\"urn:schemas-upnp-org:metadata-1-0/upnp/\"" ++
  " xmlns:sec=\"http://www.sec.co.kr/\">" ++
  "<item id=\"0\" parentID=\"-1\" restricted=\"false\">" ++
  "<upnp:class>object.item.audioItem</upnp:class>" ++
  "<res protocolInfo=\""

/-- Parse a `build_metadata` document: validate the fixed skeleton and
extract `(url, title, artist, protocolInfo)` with the escaping undone. -/
def parseDIDL (doc : String) : Option (String × String × String × String) :=
  (dropLit didlHead.data doc.data).bind fun r1 =>
  (takeUntil '"' r1).bind fun p =>
  (dropLit ">".data p.2).bind fun r3 =>
  (takeUntil '<' r3).bind fun q =>
  (dropLit "/res><dc:title>".data q.2).bind fun r5 =>
  (takeUntil '<' r5).bind fun w =>
  (dropLit "/dc:title><dc:artist>".data w.2).bind fun r7 =>
  (takeUntil '<' r7).bind fun z =>
  if z.2 = "/dc:artist></item></DIDL-Lite>".data then
    some (String.mk (unescapeXml q.1), String.mk (unescapeXml w.1),
          String.mk (unescapeXml z.1), String.mk (unescapeXml p.1))
  else none

set_option maxRecDepth 20000 in
/-- The serialized document, laid out as the fixed skeleton around the
four escaped variable fields. -/
theorem build_metadata_data (m : Metadata) :
    (build_metadata m).data =
      didlHead.data ++ (escapeXml m.protocol_info.data ++ ('"' ::
        (">".data ++ (escapeXml m.url.data ++ ('<' :: ("/res><dc:title>".data ++
          (escapeXml m.title.data ++ ('<' :: ("/dc:title><dc:artist>".data ++
            (escapeXml m.artist.data ++
              ('<' :: "/dc:artist></item></DIDL-Lite>".data))))))))))) := by
  simp only [build_metadata, didlTree, xmlHeader, didlHead, serializeElement,
    serializeContent, serializeXMLList, serializeAttrs, List.append_assoc,
    List.cons_append, List.nil_append, List.append_nil]
  rfl

/-- Round-trip: parsing the encoder's output recovers every field. -/
theorem parseDIDL_build_metadata (m : Metadata) :
    parseDIDL (build_metadata m) = some (m.url, m.title, m.artist, m.protocol_info) := by
  unfold parseDIDL
  rw [build_metadata_data m, dropLit_append]
  simp only [Option.some_bind]
  rw [takeUntil_append '"' _ _ (escapeXml_not_mem_quot _)]
  simp only [Option.some_bind]
  rw [dropLit_append]
  simp only [Option.some_bind]
  rw [takeUntil_append '<' _ _ (escapeXml_not_mem_lt _)]
  simp only [Option.some_bind]
  rw [dropLit_append]
  simp only [Option.some_bind]
  rw [takeUntil_append '<' _ _ (escapeXml_not_mem_lt _)]
  simp only [Option.some_bind]
  rw [dropLit_append]
  simp only [Option.some_bind]
  rw [takeUntil_append '<' _ _ (escapeXml_not_mem_lt _)]
  simp only [Option.some_bind]
  simp only [if_true, unescapeXml_escapeXml]

/-! ## Auxiliary facts about `pad2` -/

/-- `Nat.toDigitsCore` never shrinks its accumulator. -/
theorem toDigitsCore_length_le (base : Nat) :
    ∀ fuel n ds, (ds : List Char).length ≤ (Nat.toDigitsCore base fuel n ds).length
  | 0, _, _ => le_refl _
  | fuel+1, n, ds => by
    unfold Nat.toDigitsCore
    dsimp only
    split
    · simp
    · exact le_trans (by simp) (toDigitsCore_length_le base fuel _ _)

/-- A number's digit list is never empty. -/
theorem one_le_toDigits_length (n : Nat) : 1 ≤ (Nat.toDigits 10 n).length := by
  unfold Nat.toDigits Nat.toDigitsCore
  dsimp only
  split
  · simp
  · exact le_trans (by simp) (toDigitsCore_length_le 10 n _ _)

/-- A number's decimal rendering is never empty. -/
theorem one_le_repr_length (n : Nat) : 1 ≤ (Nat.repr n).length := by
  have h : (Nat.repr n).length = (Nat.toDigits 10 n).length := rfl
  rw [h]
  exact one_le_toDigits_length n

/-- A zero-padded component has at least two characters (more when the
number needs them: the padding never truncates). -/
theorem two_le_pad2_length (n : Nat) : 2 ≤ (pad2 n).length := by
  unfold pad2
  split
  · rename_i h
    have h1 := one_le_repr_length n
    have h2 : ("0" ++ Nat.repr n).length = (Nat.repr n).length + 1 := by
      have h3 : ("0" ++ Nat.repr n).data = '0' :: (Nat.repr n).data := rfl
      show ("0" ++ Nat.repr n).data.length = (Nat.repr n).data.length + 1
      rw [h3]; rfl
    omega
  · omega

/-! ## Concrete fixtures used by witnesses and counterexamples -/

/-- A transport whose every dispatch succeeds with an empty body. -/
def okTransport : Transport := fun _ _ _ => .ok ""

/-- A transport whose every dispatch fails with the error `boom`. -/
def errTransport : Transport := fun _ _ _ => .error "boom"

/-- A transport on which `SetAVTransportURI` succeeds and `Play` fails. -/
def playFailTransport : Transport := fun _ action _ =>
  if action = "Play" then .error "play failed" else .ok ""

/-- Decoders whose every decode fails with the error `bad body`. -/
def failDecoders : Decoders :=
  ⟨fun _ => .error "bad body", fun _ => .error "bad body",
   fun _ => .error "bad body", fun _ => .error "bad body"⟩

/-- Empty load options with autoplay requested. -/
def optsAutoplay : LoadOptions :=
  { dlna_features := none, content_type := none, metadata := none, autoplay := true }

/-- Empty load options without autoplay. -/
def optsNoAutoplay : LoadOptions :=
  { dlna_features := none, content_type := none, metadata := none, autoplay := false }

/-! ## The claims -/

/-- C1: for every media item, the metadata encoder builds a DIDL-Lite root
declaring the four namespaces (`DIDL-Lite`, `dc`, `upnp`, `sec`) with
exactly one `item` child having attributes `id="0"`, `parentID="-1"`,
`restricted="false"`, whose children are, in this order, exactly one
`upnp:class`, one `res` (`protocolInfo` attribute equal to the item's
protocol-info string, text content equal to the item's URL), one
`dc:title`, and one `dc:artist`. -/
theorem C1_metadata_structure (m : Metadata) :
    buildDidlRun m = Outcome.ok (XMLElement.mk "DIDL-Lite"
      [("xmlns", "urn:schemas-upnp-org:metadata-1-0/DIDL-Lite/"),
       ("xmlns:dc", "http://purl.org/dc/elements/1.1/"),
       ("xmlns:upnp", "urn:schemas-upnp-org:metadata-1-0/upnp/"),
       ("xmlns:sec", "http://www.sec.co.kr/")]
      (.elements (.cons (.mk "item"
        [("id", "0"), ("parentID", "-1"), ("restricted", "false")]
        (.elements (.cons (.mk "upnp:class" [] (.text "object.item.audioItem"))
          (.cons (.mk "res" [("protocolInfo", m.protocol_info)] (.text m.url))
          (.cons (.mk "dc:title" [] (.text m.title))
          (.cons (.mk "dc:artist" [] (.text m.artist)) .nil)))))) .nil))) :=
  buildDidlRun_eq m

/-- C2: `load` with `autoplay=false` issues exactly one action
(`SetAVTransportURI`); with `autoplay=true` it issues exactly two, in
order (`SetAVTransportURI` then `Play`), `Play` only after
`SetAVTransportURI` succeeded; when `SetAVTransportURI` succeeds and
`Play` fails, `load` surfaces the `Play` failure, and no further action is
dispatched after it (the URI set is not rolled back). -/
theorem C2_load_action_sequence (t : Transport) (url : String) (options : LoadOptions) :
    (options.autoplay = false →
      (load t url options).1 =
        [⟨"AVTransport", "SetAVTransportURI", loadParams url options⟩]) ∧
    (∀ e, t "AVTransport" "SetAVTransportURI" (loadParams url options) = .error e →
      load t url options =
        ([⟨"AVTransport", "SetAVTransportURI", loadParams url options⟩], .err e)) ∧
    (options.autoplay = true →
      ∀ r, t "AVTransport" "SetAVTransportURI" (loadParams url options) = .ok r →
        (load t url options).1 =
          [⟨"AVTransport", "SetAVTransportURI", loadParams url options⟩,
           ⟨"AVTransport", "Play", playParams⟩] ∧
        (∀ e, t "AVTransport" "Play" playParams = .error e →
          load t url options =
            ([⟨"AVTransport", "SetAVTransportURI", loadParams url options⟩,
              ⟨"AVTransport", "Play", playParams⟩], .err e)) ∧
        (∀ r2, t "AVTransport" "Play" playParams = .ok r2 →
          load t url options =
            ([⟨"AVTransport", "SetAVTransportURI", loadParams url options⟩,
              ⟨"AVTransport", "Play", playParams⟩], .ok ()))) := by
  refine ⟨?_, ?_, ?_⟩
  · intro hau
    cases ht : t "AVTransport" "SetAVTransportURI" (loadParams url options) with
    | error e => simp [load, ht]
    | ok r => simp [load, ht, hau]
  · intro e ht
    simp [load, ht]
  · intro hau r ht
    refine ⟨?_, ?_, ?_⟩
    · cases hp : t "AVTransport" "Play" playParams with
      | error e => simp [load, ht, hau, play, hp]
      | ok r2 => simp [load, ht, hau, play, hp]
    · intro e hp
      simp [load, ht, hau, play, hp]
    · intro r2 hp
      simp [load, ht, hau, play, hp]

/-- C2 witness: on an always-successful transport, `load` without autoplay
dispatches exactly `SetAVTransportURI`; on a transport where `Play` fails,
`load` with autoplay dispatches both actions and surfaces the `Play`
failure. -/
theorem C2_load_action_sequence_witness :
    (load okTransport "http://host/a.mp3" optsNoAutoplay).1 =
      [⟨"AVTransport", "SetAVTransportURI", loadParams "http://host/a.mp3" optsNoAutoplay⟩] ∧
    load playFailTransport "http://host/a.mp3" optsAutoplay =
      ([⟨"AVTransport", "SetAVTransportURI", loadParams "http://host/a.mp3" optsAutoplay⟩,
        ⟨"AVTransport", "Play", playParams⟩], .err "play failed") := by
  constructor
  · exact (C2_load_action_sequence okTransport "http://host/a.mp3" optsNoAutoplay).1 rfl
  · exact ((C2_load_action_sequence playFailTransport "http://host/a.mp3"
      optsAutoplay).2.2 rfl "" rfl).2.1 "play failed" rfl

/-- C3 (code bug): on a transport whose `Seek` dispatch succeeds, `seek`
does not return success — the source's `todo!()` placeholder panics right
after the successful dispatch.  `seek(7384)` dispatches
`Unit=REL_TIME, Target="02:03:04"` and then panics. -/
theorem C3_seek_panics_after_successful_dispatch :
    seek okTransport 7384 =
      ([⟨"AVTransport", "Seek",
         [("InstanceID", "0"), ("Unit", "REL_TIME"), ("Target", "02:03:04")]⟩],
       Outcome.panic) := rfl

/-- C4: `format_time` renders a second count as colon-separated components
`H:M:S`, each component the decimal digits zero-padded to at least two
characters, the hours component `seconds / 3600` neither clamped nor
reduced modulo 24; in particular `format_time 0 = "00:00:00"`,
`format_time 3661 = "01:01:01"`, `format_time 360000 = "100:00:00"`. -/
theorem C4_format_time_spec :
    (∀ n : Nat, format_time n =
      pad2 (n / 3600) ++ ":" ++ pad2 ((n % 3600) / 60) ++ ":" ++ pad2 (n % 60)) ∧
    (∀ n : Nat, 2 ≤ (pad2 n).length) ∧
    format_time 0 = "00:00:00" ∧
    format_time 3661 = "01:01:01" ∧
    format_time 360000 = "100:00:00" :=
  ⟨fun _ => rfl, two_le_pad2_length, rfl, rfl, rfl⟩

/-- C5: the encoder XML-escapes all text and attribute values, so that
its output parses back with the `res` text equal to the URL, the `res`
`protocolInfo` attribute equal to the protocol-info string, and the
`dc:title` / `dc:artist` texts equal to the title and artist — encode,
parse, extract yields the original values. -/
theorem C5_metadata_roundtrip (title artist url protocol_info : String) :
    parseDIDL (build_metadata
        { url := url, title := title, artist := artist, protocol_info := protocol_info }) =
      some (url, title, artist, protocol_info) :=
  parseDIDL_build_metadata
    { url := url, title := title, artist := artist, protocol_info := protocol_info }

/-- C6 counterexample: the claim fails on the code in two ways.  `seek` on
an always-successful transport neither returns a successful typed result
nor surfaces any error — it panics on `todo!()`.  And `pause` and `stop`
surface the identical error value `boom` for the same transport failure:
the propagated error is the transport's error as-is, with no operation
name attached. -/
theorem C6_counterexample :
    (seek okTransport 0).2 = Outcome.panic ∧
    pause errTransport = ([⟨"AVTransport", "Pause", pauseParams⟩], Outcome.err "boom") ∧
    stop errTransport = ([⟨"AVTransport", "Stop", stopParams⟩], Outcome.err "boom") :=
  ⟨rfl, rfl, rfl⟩

/-- C6 (amended): no public method swallows or retries an error — each
method dispatches each action at most once and, on a transport or decoder
failure, surfaces exactly that error value unchanged (no operation name
attached, no error-kind tag); on a successful dispatch every method
returns its typed result, except `seek`, which panics on the source's
unimplemented `todo!()` placeholder. -/
theorem C6_error_propagation (d : Decoders) (t : Transport) (url : String)
    (options : LoadOptions) (seconds volume : Nat) :
    (∀ e, t "AVTransport" "SetAVTransportURI" (loadParams url options) = .error e →
      load t url options =
        ([⟨"AVTransport", "SetAVTransportURI", loadParams url options⟩], .err e)) ∧
    (∀ r, t "AVTransport" "SetAVTransportURI" (loadParams url options) = .ok r →
      options.autoplay = false →
      load t url options =
        ([⟨"AVTransport", "SetAVTransportURI", loadParams url options⟩], .ok ())) ∧
    (∀ r e, t "AVTransport" "SetAVTransportURI" (loadParams url options) = .ok r →
      options.autoplay = true → t "AVTransport" "Play" playParams = .error e →
      load t url options =
        ([⟨"AVTransport", "SetAVTransportURI", loadParams url options⟩,
          ⟨"AVTransport", "Play", playParams⟩], .err e)) ∧
    (∀ e, t "AVTransport" "Play" playParams = .error e →
      play t = ([⟨"AVTransport", "Play", playParams⟩], .err e)) ∧
    (∀ r, t "AVTransport" "Play" playParams = .ok r →
      play t = ([⟨"AVTransport", "Play", playParams⟩], .ok ())) ∧
    (∀ e, t "AVTransport" "Pause" pauseParams = .error e →
      pause t = ([⟨"AVTransport", "Pause", pauseParams⟩], .err e)) ∧
    (∀ r, t "AVTransport" "Pause" pauseParams = .ok r →
      pause t = ([⟨"AVTransport", "Pause", pauseParams⟩], .ok ())) ∧
    (∀ e, t "AVTransport" "Seek" (seekParams seconds) = .error e →
      seek t seconds = ([⟨"AVTransport", "Seek", seekParams seconds⟩], .err e)) ∧
    (∀ r, t "AVTransport" "Seek" (seekParams seconds) = .ok r →
      seek t seconds = ([⟨"AVTransport", "Seek", seekParams seconds⟩], .panic)) ∧
    (∀ e, t "AVTransport" "Stop" stopParams = .error e →
      stop t = ([⟨"AVTransport", "Stop", stopParams⟩], .err e)) ∧
    (∀ r, t "AVTransport" "Stop" stopParams = .ok r →
      stop t = ([⟨"AVTransport", "Stop", stopParams⟩], .ok ())) ∧
    (∀ e, t "RenderingControl" "GetVolume" getVolumeParams = .error e →
      get_volume d t = ([⟨"RenderingControl", "GetVolume", getVolumeParams⟩], .err e)) ∧
    (∀ r e, t "RenderingControl" "GetVolume" getVolumeParams = .ok r →
      d.parse_volume r = .error e →
      get_volume d t = ([⟨"RenderingControl", "GetVolume", getVolumeParams⟩], .err e)) ∧
    (∀ r v, t "RenderingControl" "GetVolume" getVolumeParams = .ok r →
      d.parse_volume r = .ok v →
      get_volume d t = ([⟨"RenderingControl", "GetVolume", getVolumeParams⟩], .ok v)) ∧
    (∀ e, t "RenderingControl" "SetVolume" (setVolumeParams volume) = .error e →
      set_volume t volume =
        ([⟨"RenderingControl", "SetVolume", setVolumeParams volume⟩], .err e)) ∧
    (∀ r, t "RenderingControl" "SetVolume" (setVolumeParams volume) = .ok r →
      set_volume t volume =
        ([⟨"RenderingControl", "SetVolume", setVolumeParams volume⟩], .ok ())) ∧
    (∀ e, t "ConnectionManager" "GetProtocolInfo" getSupportedProtocolsParams = .error e →
      get_supported_protocols d t =
        ([⟨"ConnectionManager", "GetProtocolInfo", getSupportedProtocolsParams⟩], .err e)) ∧
    (∀ r e, t "ConnectionManager" "GetProtocolInfo" getSupportedProtocolsParams = .ok r →
      d.parse_supported_protocols r = .error e →
      get_supported_protocols d t =
        ([⟨"ConnectionManager", "GetProtocolInfo", getSupportedProtocolsParams⟩], .err e)) ∧
    (∀ r v, t "ConnectionManager" "GetProtocolInfo" getSupportedProtocolsParams = .ok r →
      d.parse_supported_protocols r = .ok v →
      get_supported_protocols d t =
        ([⟨"ConnectionManager", "GetProtocolInfo", getSupportedProtocolsParams⟩], .ok v)) ∧
    (∀ e, t "AVTransport" "GetPositionInfo" getPositionParams = .error e →
      get_position d t = ([⟨"AVTransport", "GetPositionInfo", getPositionParams⟩], .err e)) ∧
    (∀ r e, t "AVTransport" "GetPositionInfo" getPositionParams = .ok r →
      d.parse_position r = .error e →
      get_position d t = ([⟨"AVTransport", "GetPositionInfo", getPositionParams⟩], .err e)) ∧
    (∀ r v, t "AVTransport" "GetPositionInfo" getPositionParams = .ok r →
      d.parse_position r = .ok v →
      get_position d t = ([⟨"AVTransport", "GetPositionInfo", getPositionParams⟩], .ok v)) ∧
    (∀ e, t "AVTransport" "GetMediaInfo" getDurationParams = .error e →
      get_duration d t = ([⟨"AVTransport", "GetMediaInfo", getDurationParams⟩], .err e)) ∧
    (∀ r e, t "AVTransport" "GetMediaInfo" getDurationParams = .ok r →
      d.parse_duration r = .error e →
      get_duration d t = ([⟨"AVTransport", "GetMediaInfo", getDurationParams⟩], .err e)) ∧
    (∀ r v, t "AVTransport" "GetMediaInfo" getDurationParams = .ok r →
      d.parse_duration r = .ok v →
      get_duration d t = ([⟨"AVTransport", "GetMediaInfo", getDurationParams⟩], .ok v)) := by
  refine ⟨?_, ?_, ?_, ?_, ?_, ?_, ?_, ?_, ?_, ?_, ?_, ?_, ?_, ?_, ?_, ?_, ?_, ?_,
    ?_, ?_, ?_, ?_, ?_, ?_, ?_⟩
  · intro e ht; simp [load, ht]
  · intro r ht hau; simp [load, ht, hau]
  · intro r e ht hau hp; simp [load, ht, hau, play, hp]
  · intro e hp; simp [play, hp]
  · intro r hp; simp [play, hp]
  · intro e ht; simp [pause, ht]
  · intro r ht; simp [pause, ht]
  · intro e ht; simp [seek, ht]
  · intro r ht; simp [seek, ht]
  · intro e ht; simp [stop, ht]
  · intro r ht; simp [stop, ht]
  · intro e ht; simp [get_volume, ht]
  · intro r e ht hd; simp [get_volume, ht, hd]
  · intro r v ht hd; simp [get_volume, ht, hd]
  · intro e ht; simp [set_volume, ht]
  · intro r ht; simp [set_volume, ht]
  · intro e ht; simp [get_supported_protocols, ht]
  · intro r e ht hd; simp [get_supported_protocols, ht, hd]
  · intro r v ht hd; simp [get_supported_protocols, ht, hd]
  · intro e ht; simp [get_position, ht]
  · intro r e ht hd; simp [get_position, ht, hd]
  · intro r v ht hd; simp [get_position, ht, hd]
  · intro e ht; simp [get_duration, ht]
  · intro r e ht hd; simp [get_duration, ht, hd]
  · intro r v ht hd; simp [get_duration, ht, hd]

/-- C6 witness: the amended propagation behaviour at concrete inputs — a
failing transport's error surfaces unchanged from `pause`, and a decoder
failure surfaces unchanged from `get_volume`. -/
theorem C6_error_propagation_witness :
    pause errTransport = ([⟨"AVTransport", "Pause", pauseParams⟩], .err "boom") ∧
    get_volume failDecoders okTransport =
      ([⟨"RenderingControl", "GetVolume", getVolumeParams⟩], .err "bad body") := by
  constructor
  · exact (C6_error_propagation failDecoders errTransport "" optsNoAutoplay 0
      0).2.2.2.2.2.1 "boom" rfl
  · exact (C6_error_propagation failDecoders okTransport "" optsNoAutoplay 0
      0).2.2.2.2.2.2.2.2.2.2.2.2.1 "" "bad body" rfl rfl

/-- C7: the metadata encoder has no error result at all — serialization
completes for every input (so no input reaches the claimed
`EncodingError`), and each internal fallible step is `.unwrap()`ed, which
panics instead of returning an error value. -/
theorem C7_encoder_never_errors (m : Metadata) :
    buildMetadataRun m = Outcome.ok (build_metadata m) ∧
    ∀ e, buildMetadataRun m ≠ Outcome.err e := by
  constructor
  · rfl
  · intro e h
    rw [show buildMetadataRun m = Outcome.ok (build_metadata m) from rfl] at h
    exact Outcome.noConfusion h

/-- C8: the parameter mapping of every public operation includes
`InstanceID = "0"`. -/
theorem C8_instance_id_always_zero (url : String) (options : LoadOptions)
    (seconds volume : Nat) :
    (loadParams url options).lookup "InstanceID" = some "0" ∧
    playParams.lookup "InstanceID" = some "0" ∧
    pauseParams.lookup "InstanceID" = some "0" ∧
    stopParams.lookup "InstanceID" = some "0" ∧
    (seekParams seconds).lookup "InstanceID" = some "0" ∧
    getVolumeParams.lookup "InstanceID" = some "0" ∧
    (setVolumeParams volume).lookup "InstanceID" = some "0" ∧
    getSupportedProtocolsParams.lookup "InstanceID" = some "0" ∧
    getPositionParams.lookup "InstanceID" = some "0" ∧
    getDurationParams.lookup "InstanceID" = some "0" :=
  ⟨rfl, rfl, rfl, rfl, rfl, rfl, rfl, rfl, rfl, rfl⟩

/-- C9: `load`'s option defaulting — `contentType` defaults to
`video/mpeg`, `dlnaFeatures` to `*`, metadata title/artist to empty
strings — and the protocol-info string is
`http-get:*:<content-type>:<dlna-features>` over the (possibly defaulted)
options. -/
theorem C9_load_defaults (url : String) (options : LoadOptions) :
    (loadMetadata url options).protocol_info =
      "http-get:*:" ++ options.content_type.getD "video/mpeg" ++ ":" ++
        options.dlna_features.getD "*" ∧
    (options.content_type = none → options.dlna_features = none →
      (loadMetadata url options).protocol_info = "http-get:*:video/mpeg:*") ∧
    (options.metadata = none →
      (loadMetadata url options).title = "" ∧ (loadMetadata url options).artist = "") ∧
    (∀ given, options.metadata = some given →
      (loadMetadata url options).title = given.title ∧
      (loadMetadata url options).artist = given.artist) := by
  refine ⟨rfl, ?_, ?_, ?_⟩
  · intro hct hdf
    simp [loadMetadata, hct, hdf]
  · intro hm
    simp [loadMetadata, hm, Metadata.default]
  · intro given hm
    simp [loadMetadata, hm]

/-- C9 witness: with no options given, the constructed item's protocol
info and metadata are the documented defaults. -/
theorem C9_load_defaults_witness :
    (loadMetadata "http://host/a.mp3" optsNoAutoplay).protocol_info =
      "http-get:*:video/mpeg:*" ∧
    (loadMetadata "http://host/a.mp3" optsNoAutoplay).title = "" ∧
    (loadMetadata "http://host/a.mp3" optsNoAutoplay).artist = "" := by
  have h := C9_load_defaults "http://host/a.mp3" optsNoAutoplay
  exact ⟨h.2.1 rfl rfl, (h.2.2.1 rfl).1, (h.2.2.1 rfl).2⟩

/-- C10: the parameter mapping built by `load` is internally consistent
about the media source — `CurrentURI` is the caller's URL, and the `res`
text inside the `CurrentURIMetaData` DIDL-Lite document parses back to the
same URL. -/
theorem C10_uri_consistency (url : String) (options : LoadOptions) :
    (loadParams url options).lookup "CurrentURI" = some url ∧
    (loadParams url options).lookup "CurrentURIMetaData" =
      some (build_metadata (loadMetadata url options)) ∧
    (parseDIDL (build_metadata (loadMetadata url options))).map (fun f => f.1) =
      some url := by
  refine ⟨rfl, rfl, ?_⟩
  rw [parseDIDL_build_metadata]
  rfl

end MediaRenderer
